import Mathlib

/-!
Shallow embedding of the status-aggregation logic of `src/script.js`
(anikenji/uptime-page).  The source file contains two near-duplicate
script variants; definitions for the first (Upptime-API) variant carry
no suffix, definitions for the second (demo/mock) variant carry the
suffix `Demo` or `2`.
-/

/-- `CONFIG.uptimeDays` — number of days shown in the uptime bar (both variants). -/
def uptimeDays : Nat := 90

/-- One entry of `data.sites` in the summary payload.  `status` is the raw
status string (`"up"` / `"down"` in practice); `uptime` is the raw
string-percent field, `none` when the field is absent or empty (falsy in JS);
`time` is the current response time field, `none` when absent;
`dailyMinutesDown` is `none` when the field is absent or not an array. -/
structure Site where
  name : String
  status : String
  uptime : Option String
  time : Option Nat
  dailyMinutesDown : Option (List Nat)
deriving DecidableEq, Repr

/-- Overall banner state set by `updateOverallStatus` (CSS class added to the
banner: `operational` / `degraded` / `outage`). -/
inductive Banner where
  | operational
  | degraded
  | outage
deriving DecidableEq, Repr

/-- `updateOverallStatus` (identical in both variants, src/script.js:58-75 and
409-426): `allUp = sites.every(s => s.status === 'up')`,
`anyDown = sites.some(s => s.status === 'down')`; banner is `operational` when
`allUp`, else `outage` when `anyDown`, else `degraded`. -/
def updateOverallStatus (sites : List Site) : Banner :=
  if sites.all (fun s => s.status = "up") then .operational
  else if sites.any (fun s => s.status = "down") then .outage
  else .degraded

/-- Day-cell severity class used by `generateUptimeBar` (src/script.js:142-151):
`""` (operational, green by default) when `minutesDown === 0`, `"degraded"`
when `minutesDown < 30`, `"down"` otherwise. -/
def classifyDay (minutesDown : Nat) : String :=
  if minutesDown = 0 then ""
  else if minutesDown < 30 then "degraded"
  else "down"

/-- `generateUptimeBar` of the first variant (src/script.js:132-165), as the
list of per-day CSS class strings, in rendered (left-to-right) order.  The
loop runs `i = 0 .. uptimeDays-1` and PREPENDS each cell
(`bars = cell + bars`), so the rendered order is day `uptimeDays-1` first and
day `0` (most recent) last; hence the `.reverse`.  With the array present,
`minutesDown = site.dailyMinutesDown[i] || 0`, i.e. `0` past the end of the
array — modelled by `List.getD l i 0`.  Without an array, cell `i = 0` is
operational (`""`) and every other cell is `"no-data"`. -/
def generateUptimeBar (dailyMinutesDown : Option (List Nat)) : List String :=
  match dailyMinutesDown with
  | some l =>
      ((List.range uptimeDays).map (fun i => classifyDay (l.getD i 0))).reverse
  | none =>
      ((List.range uptimeDays).map (fun i =>
        if i = 0 then "" else "no-data")).reverse

/-- JS string truthiness applied to the optional `uptime` field:
`site.uptime || '100'` yields `'100'` when the field is absent or the empty
string, and the raw string otherwise. -/
def uptimeRaw (uptime : Option String) : String :=
  match uptime with
  | none => "100"
  | some s => if s = "" then "100" else s

/-- Leading-digit scanner used by the `parseFloat` model: splits a character
list into its maximal digit prefix and the remainder. -/
def takeDigits : List Char → List Char × List Char
  | [] => ([], [])
  | c :: cs =>
    if c.isDigit then
      let (ds, rest) := takeDigits cs
      (c :: ds, rest)
    else ([], c :: cs)

/-- Value of a decimal digit string (most significant digit first). -/
def digitsToNat (ds : List Char) : Nat :=
  ds.foldl (fun a c => 10 * a + (c.toNat - 48)) 0

/-- Model of JS `parseFloat` on the simple non-negative decimal numerals that
occur as Upptime string-percent values (`"99.95"`, `"100"`): the maximal
digit prefix, optionally followed by `.` and a fraction part.  (Exotic JS
inputs — signs, exponents, `NaN` — are outside the payloads this model
covers.) -/
def parseFloatQ (s : String) : ℚ :=
  match takeDigits s.data with
  | (ip, '.' :: rest2) =>
      let (fp, _) := takeDigits rest2
      (digitsToNat ip : ℚ) + (digitsToNat fp : ℚ) / (10 ^ fp.length)
  | (ip, _) => (digitsToNat ip : ℚ)

/-- Two-digit zero padding for the fraction part of `formatFixed2`. -/
def pad2 (m : Nat) : String := if m < 10 then "0" ++ toString m else toString m

/-- Model of JS `Number.prototype.toFixed(2)` on non-negative values: round
to the nearest hundredth (ties up) and print with exactly two fraction
digits. -/
def formatFixed2 (q : ℚ) : String :=
  let n : Int := ⌊q * 100 + 1 / 2⌋
  toString (n / 100) ++ "." ++ pad2 (n % 100).toNat

/-- Parsed uptime percent of the first variant (src/script.js:91):
`parseFloat(site.uptime || '100')`. -/
def uptimePercent (uptime : Option String) : ℚ :=
  parseFloatQ (uptimeRaw uptime)

/-- Uptime text rendered by the first variant (src/script.js:91,109):
`parseFloat(site.uptime || '100').toFixed(2)`. -/
def uptimeDisplay (uptime : Option String) : String :=
  formatFixed2 (uptimePercent uptime)

/-- Uptime text rendered by the second (demo) variant (src/script.js:454):
the raw `site.uptime || '100'` string, with no reformatting. -/
def uptimeDisplayDemo (uptime : Option String) : String :=
  uptimeRaw uptime

/-- `true` iff the string has a decimal point with exactly two characters
after the last one — the shape `toFixed(2)` output always has. -/
def hasTwoDecimals (s : String) : Bool :=
  s.data.contains '.' && (s.data.reverse.takeWhile (fun c => c ≠ '.')).length = 2

/-- One record of the Worker history payload `result.data`
(src/script.js:211-223): a timestamp in ms and a response time in ms. -/
structure HistPoint where
  time : Nat
  responseTime : Nat
deriving DecidableEq, Repr

/-- `new Date(point.time).getHours()` — hour of day of a ms timestamp,
modelled at UTC offset; a fixed local-time offset only relabels the 24 hour
keys and is immaterial to the bucketing properties proved below. -/
def hourOf (t : Nat) : Nat := t / 3600000 % 24

/-- One `forEach` step of the hour-grouping loop (src/script.js:215-223):
the accumulator maps each hour key to the running `{ sum, count }`, absent
(`none`) before the first sample of that hour arrives. -/
def addPoint (m : Int → Option (Nat × Nat)) (p : HistPoint) :
    Int → Option (Nat × Nat) :=
  fun h =>
    if h = (hourOf p.time : Int) then
      match m h with
      | none => some (p.responseTime, 1)
      | some (s, c) => some (s + p.responseTime, c + 1)
    else m h

/-- The finished `hourlyData` map after the `forEach` over `result.data`. -/
def hourlyData (data : List HistPoint) : Int → Option (Nat × Nat) :=
  data.foldl addPoint (fun _ => none)

/-- `Math.round(s / c)` for naturals: `⌊s/c + 1/2⌋` (round to nearest,
ties up). -/
def jsRound (s c : Nat) : Nat := (2 * s + c) / (2 * c)

/-- One chart point (src/script.js:229-233): the rounded mean of the hour's
bucket, or `null` (`none`) when `hourlyData[hour]` is absent. -/
def chartPoint (data : List HistPoint) (h : Int) : Option Nat :=
  match hourlyData data h with
  | some (s, c) => some (jsRound s c)
  | none => none

/-- Hour label of chart slot `i`: `(now.getHours() - 23 + i + 24) % 24`
(src/script.js:227).  For `0 ≤ nowHour ≤ 23` the JS `%` (sign of dividend)
agrees with `Int.emod` since the dividend `nowHour + i + 1` is non-negative. -/
def chartHour (nowHour : Int) (i : Nat) : Int := (nowHour - 23 + i + 24) % 24

/-- The 24-slot chart series built from a fetched history series
(src/script.js:212-234); empty when `result.data` is empty (the guard
`result.data.length > 0` fails and `chartData` stays `[]`). -/
def chartDataFromHistory (data : List HistPoint) (nowHour : Int) :
    List (Option Nat) :=
  if data = [] then []
  else (List.range 24).map (fun i => chartPoint data (chartHour nowHour i))

/-- The fallback series (src/script.js:242-248): when no history produced any
chart data, every one of the 24 slots is `currentTime` (the loop index `i`
only affects the labels). -/
def fallbackChartData (currentTime : Nat) : List Nat :=
  (List.range 24).map (fun _ => currentTime)

/-- `site.time || 300` passed to `fetchAndCreateChart` (src/script.js:190):
JS falsiness sends both an absent and a zero `time` field to `300`. -/
def chartBaseline (time : Option Nat) : Nat :=
  match time with
  | none => 300
  | some t => if t = 0 then 300 else t

/-- Full per-site chart data of the first variant: history points when the
fetch succeeded with non-empty data (`hist = some data`, `data ≠ []`),
otherwise (`chartData.length === 0`) the constant fallback series.  `none`
for `hist` models a failed fetch / non-OK response. -/
def siteChartData (hist : Option (List HistPoint)) (nowHour : Int)
    (currentTime : Nat) : List (Option Nat) :=
  let cd := match hist with
    | some data => chartDataFromHistory data nowHour
    | none => []
  if cd = [] then (fallbackChartData currentTime).map some else cd

/-- `generateUptimeBar` of the second (demo) variant (src/script.js:477-490):
each of the 90 cells draws `rand = Math.random()` and picks `""` when
`rand > 0.02`, `"degraded"` when `0.01 < rand ≤ 0.02`, `"down"` otherwise;
cells are APPENDED (`bars += ...`), so the list is in loop order.  The
argument `rand` is the run's stream of `Math.random()` draws (one per cell,
each in `[0,1)`). -/
def generateUptimeBarDemo (rand : Nat → ℚ) : List String :=
  (List.range uptimeDays).map (fun i =>
    if rand i > 2 / 100 then ""
    else if rand i > 1 / 100 then "degraded"
    else "down")

/-- `CONFIG.services` of the second variant (src/script.js:363-366), as
(name, url) pairs (slug and icon are rendering glue). -/
def CONFIGservices : List (String × String) :=
  [("Website", "https://anikenji.live"),
   ("Streaming Service", "https://service.anikenji.live")]

/-- `renderMockData`'s fabricated summary (src/script.js:616-624): every
configured service is reported `status: 'up'` with `uptime: '100.00'` and a
random `time` — `rand i` models the i-th draw of
`Math.floor(Math.random() * 500)`, so `time = rand i + 200`. -/
def renderMockSites (rand : Nat → Nat) : List Site :=
  CONFIGservices.mapIdx (fun i sv =>
    { name := sv.1
      status := "up"
      uptime := some "100.00"
      time := some (rand i + 200)
      dailyMinutesDown := none })

/-- What a tick of `loadStatusData` leaves on screen. -/
inductive RenderOutcome where
  | rendered (sites : List Site)
  | errorState
  | mockRendered (sites : List Site)
deriving DecidableEq, Repr

/-- Tick dispatch of the first variant (src/script.js:30-55): a usable
summary payload (`some sites`) is rendered; a thrown fetch, a non-OK
response or a JSON failure (`none`) lands in the `catch` and calls
`showErrorState`. -/
def loadStatusData (resp : Option (List Site)) : RenderOutcome :=
  match resp with
  | some sites => .rendered sites
  | none => .errorState

/-- Tick dispatch of the second (demo) variant (src/script.js:383-406): a
non-OK response or a thrown fetch calls `renderMockData` instead. -/
def loadStatusDataDemo (resp : Option (List Site)) (rand : Nat → Nat) :
    RenderOutcome :=
  match resp with
  | some sites => .rendered sites
  | none => .mockRendered (renderMockSites rand)

/-- The innerHTML installed by `showErrorState` (src/script.js:311-321),
template-literal whitespace collapsed. -/
def showErrorStateHtml : String :=
  "<div style=\"text-align: center; padding: 2rem; color: #ff4466; grid-column: 1 / -1;\"> <p>⚠️ Không thể tải dữ liệu trạng thái.</p> <button onclick=\"loadStatusData()\" style=\"margin-top: 1rem; padding: 0.5rem 1rem; background: #00d4ff; border: none; border-radius: 8px; cursor: pointer; color: #000;\"> 🔄 Thử lại </button> </div>"

/-- View-model of one service card of the first variant
(src/script.js:82-127): status class and text, uptime text, response time
(`site.time || 0`) and the uptime-bar cells. -/
structure CardView where
  statusClass : String
  statusText : String
  uptimeText : String
  responseTime : Nat
  barCells : List String
deriving DecidableEq, Repr

/-- One card of `renderServiceCards` (first variant). -/
def renderCard (s : Site) : CardView :=
  { statusClass := if s.status = "up" then "operational" else "down"
    statusText := if s.status = "up" then "Hoạt động" else "Gián đoạn"
    uptimeText := uptimeDisplay s.uptime
    responseTime := s.time.getD 0
    barCells := generateUptimeBar s.dailyMinutesDown }

/-- One full render tick of the first variant on a usable payload: banner,
cards and per-site chart series, as functions of the payload `sites`, the
per-site history fetch results `hists`, and the current hour.  `rand` is the
run's stream of `Math.random()` draws; the first variant's tick never draws
from it (no call to `Math.random` occurs in this variant), which the
determinism theorem below makes explicit. -/
def renderTick (sites : List Site) (hists : List (Option (List HistPoint)))
    (nowHour : Int) (rand : Nat → ℚ) :
    Banner × List CardView × List (List (Option Nat)) :=
  (updateOverallStatus sites,
   sites.map renderCard,
   List.zipWith (fun s h => siteChartData h nowHour (chartBaseline s.time))
     sites hists)


/-- Samples of `data` whose `getHours` value equals the hour key `h` —
the bucket behind `hourlyData data h`. -/
def hourGroup (data : List HistPoint) (h : Int) : List HistPoint :=
  data.filter (fun p => (hourOf p.time : Int) = h)

/-- Total response time of the hour bucket (the `sum` field). -/
def groupSum (data : List HistPoint) (h : Int) : Nat :=
  ((hourGroup data h).map HistPoint.responseTime).sum

lemma hourGroup_cons_pos (p : HistPoint) (rest : List HistPoint) (h : Int)
    (hp : h = (hourOf p.time : Int)) :
    hourGroup (p :: rest) h = p :: hourGroup rest h := by
  simp [hourGroup, List.filter_cons, hp]

lemma hourGroup_cons_neg (p : HistPoint) (rest : List HistPoint) (h : Int)
    (hp : ¬ h = (hourOf p.time : Int)) :
    hourGroup (p :: rest) h = hourGroup rest h := by
  have hp2 : ¬ (hourOf p.time : Int) = h := fun x => hp x.symm
  simp [hourGroup, List.filter_cons, hp2]

lemma foldl_addPoint_some (data : List HistPoint) :
    ∀ (m : Int → Option (Nat × Nat)) (h : Int) (s c : Nat), m h = some (s, c) →
      (data.foldl addPoint m) h =
        some (s + groupSum data h, c + (hourGroup data h).length) := by
  induction data with
  | nil =>
    intro m h s c hm
    simp [hourGroup, groupSum, hm]
  | cons p rest ih =>
    intro m h s c hm
    rw [List.foldl_cons]
    by_cases hp : h = (hourOf p.time : Int)
    · have hstep : (addPoint m p) h = some (s + p.responseTime, c + 1) := by
        simp only [addPoint]
        rw [if_pos hp, hm]
      rw [ih (addPoint m p) h _ _ hstep, hourGroup_cons_pos p rest h hp]
      have hsum : groupSum (p :: rest) h = p.responseTime + groupSum rest h := by
        simp [groupSum, hourGroup_cons_pos p rest h hp]
      rw [hsum]
      simp only [Option.some.injEq, Prod.mk.injEq, List.length_cons]
      omega
    · have hstep : (addPoint m p) h = some (s, c) := by
        simp [addPoint, hp, hm]
      rw [ih (addPoint m p) h _ _ hstep, hourGroup_cons_neg p rest h hp]
      have hsum : groupSum (p :: rest) h = groupSum rest h := by
        simp [groupSum, hourGroup_cons_neg p rest h hp]
      rw [hsum]

lemma foldl_addPoint_none (data : List HistPoint) :
    ∀ (m : Int → Option (Nat × Nat)) (h : Int), m h = none →
      (data.foldl addPoint m) h =
        if hourGroup data h = [] then none
        else some (groupSum data h, (hourGroup data h).length) := by
  induction data with
  | nil =>
    intro m h hm
    simp [hourGroup, groupSum, hm]
  | cons p rest ih =>
    intro m h hm
    rw [List.foldl_cons]
    by_cases hp : h = (hourOf p.time : Int)
    · have hstep : (addPoint m p) h = some (p.responseTime, 1) := by
        simp only [addPoint]
        rw [if_pos hp, hm]
      rw [foldl_addPoint_some rest (addPoint m p) h _ _ hstep,
        hourGroup_cons_pos p rest h hp]
      have hsum : groupSum (p :: rest) h = p.responseTime + groupSum rest h := by
        simp [groupSum, hourGroup_cons_pos p rest h hp]
      rw [hsum]
      rw [if_neg (List.cons_ne_nil p (hourGroup rest h))]
      simp only [Option.some.injEq, Prod.mk.injEq, List.length_cons]
      exact ⟨trivial, by omega⟩
    · have hstep : (addPoint m p) h = none := by
        simp [addPoint, hp, hm]
      rw [ih (addPoint m p) h hstep, hourGroup_cons_neg p rest h hp]
      have hsum : groupSum (p :: rest) h = groupSum rest h := by
        simp [groupSum, hourGroup_cons_neg p rest h hp]
      rw [hsum]

lemma hourlyData_spec (data : List HistPoint) (h : Int) :
    hourlyData data h =
      if hourGroup data h = [] then none
      else some (groupSum data h, (hourGroup data h).length) :=
  foldl_addPoint_none data (fun _ => none) h rfl

lemma chartPoint_spec (data : List HistPoint) (h : Int) :
    chartPoint data h =
      if hourGroup data h = [] then none
      else some (jsRound (groupSum data h) (hourGroup data h).length) := by
  rw [chartPoint, hourlyData_spec data h]
  by_cases hg : hourGroup data h = []
  · rw [if_pos hg, if_pos hg]
  · rw [if_neg hg, if_neg hg]

lemma jsRound_eq_round (s c : Nat) (hc : 0 < c) :
    (jsRound s c : Int) = round ((s : ℚ) / c) := by
  have hc0 : (c : ℚ) ≠ 0 := by positivity
  have h1 : (s : ℚ) / c + 1 / 2 = ((2 * s + c : Nat) : ℚ) / ((2 * c : Nat) : ℚ) := by
    push_cast
    field_simp
    ring
  rw [round_eq, h1, Rat.floor_natCast_div_natCast]
  rw [jsRound]
  exact (Int.ofNat_div _ _).symm

lemma generateUptimeBar_length (d : Option (List Nat)) :
    (generateUptimeBar d).length = uptimeDays := by
  cases d <;> simp [generateUptimeBar]

lemma generateUptimeBar_getD (l : List Nat) (i : Nat) (hi : i < uptimeDays) :
    (generateUptimeBar (some l)).getD (uptimeDays - 1 - i) "?" =
      classifyDay (l.getD i 0) := by
  unfold generateUptimeBar
  have h1 : uptimeDays - 1 - i <
      (((List.range uptimeDays).map
        (fun j => classifyDay (l.getD j 0))).reverse).length := by
    simp
    omega
  rw [List.getD_eq_getElem _ _ h1, List.getElem_reverse, List.getElem_map,
    List.getElem_range]
  congr 2
  simp
  omega

/-- C1, counterexample: with `dailyMinutesDown = [45]` (length 1 < 90), the
cell of day 1 — beyond the array's length — is rendered with the Operational
class `""`, and no cell of the bar carries the `"no-data"` state, contrary to
the claim that missing days are emitted as "no data". -/
theorem uptimeBar_short_array_pads_operational :
    (generateUptimeBar (some [45])).getD 88 "?" = "" ∧
    "no-data" ∉ generateUptimeBar (some [45]) := by decide

/-- C1, amended: for every site input the uptime bar has exactly
`uptimeDays = 90` cells; when `dailyMinutesDown` is an array, the cell of day
`i` (rendered at position `89 - i`) classifies `dailyMinutesDown[i] || 0` —
so days beyond a short array's length are emitted as Operational (0 minutes
down), not "no data", and of a longer array only the first (most recent) 90
entries are used. -/
theorem uptimeBar_always_ninety_buckets (d : Option (List Nat)) (l : List Nat)
    (i : Nat) (hi : i < uptimeDays) :
    (generateUptimeBar d).length = uptimeDays ∧
    (generateUptimeBar (some l)).getD (uptimeDays - 1 - i) "?" =
      classifyDay (l.getD i 0) :=
  ⟨generateUptimeBar_length d, generateUptimeBar_getD l i hi⟩

/-- C1, witness: the amended theorem applied to the concrete bar
`dailyMinutesDown = [0, 15, 45]` at day 2. -/
theorem uptimeBar_always_ninety_buckets_witness :
    (generateUptimeBar none).length = uptimeDays ∧
    (generateUptimeBar (some [0, 15, 45])).getD (uptimeDays - 1 - 2) "?" =
      "down" := by
  have h := uptimeBar_always_ninety_buckets none [0, 15, 45] 2 (by decide)
  exact ⟨h.1, by rw [h.2]; decide⟩

/-- C2: severity classification of an explicit per-day-down-minutes value:
`0 → Operational ("")`, `0 < m < 30 → Degraded ("degraded")`,
`m ≥ 30 → Outage ("down")`. -/
theorem classifyDay_thresholds (m : Nat) :
    (m = 0 → classifyDay m = "") ∧
    (0 < m → m < 30 → classifyDay m = "degraded") ∧
    (30 ≤ m → classifyDay m = "down") := by
  refine ⟨?_, ?_, ?_⟩
  · intro h
    simp [classifyDay, h]
  · intro h1 h2
    rw [classifyDay, if_neg (by omega), if_pos h2]
  · intro h
    rw [classifyDay, if_neg (by omega), if_neg (by omega)]

/-- C2, witness: the boundary values 29 (Degraded), 30 (Outage) and 0
(Operational). -/
theorem classifyDay_thresholds_witness :
    classifyDay 29 = "degraded" ∧ classifyDay 30 = "down" ∧
    classifyDay 0 = "" :=
  ⟨(classifyDay_thresholds 29).2.1 (by decide) (by decide),
   (classifyDay_thresholds 30).2.2 (by decide),
   (classifyDay_thresholds 0).1 rfl⟩

/-- C3: on a non-empty sites list, all statuses `"up"` give the Operational
banner, and any status `"down"` gives the Outage banner. -/
theorem overallStatus_allUp_anyDown (sites : List Site) (hne : sites ≠ []) :
    ((∀ s ∈ sites, s.status = "up") →
      updateOverallStatus sites = .operational) ∧
    ((∃ s ∈ sites, s.status = "down") →
      updateOverallStatus sites = .outage) := by
  constructor
  · intro hup
    have hall : sites.all (fun s => s.status = "up") = true := by
      rw [List.all_eq_true]
      intro s hs
      simpa using hup s hs
    simp [updateOverallStatus, hall]
  · rintro ⟨s, hs, hdown⟩
    have hallf : sites.all (fun s => s.status = "up") = false := by
      rw [List.all_eq_false]
      exact ⟨s, hs, by simp [hdown]⟩
    have hany : sites.any (fun s => s.status = "down") = true := by
      rw [List.any_eq_true]
      exact ⟨s, hs, by simp [hdown]⟩
    simp [updateOverallStatus, hallf, hany]

/-- C3, witness: `[up, up, up]` is Operational and `[up, down, up]` is
Outage. -/
theorem overallStatus_allUp_anyDown_witness :
    updateOverallStatus
      [⟨"a", "up", none, none, none⟩, ⟨"b", "up", none, none, none⟩,
       ⟨"c", "up", none, none, none⟩] = .operational ∧
    updateOverallStatus
      [⟨"a", "up", none, none, none⟩, ⟨"b", "down", none, none, none⟩,
       ⟨"c", "up", none, none, none⟩] = .outage := by
  constructor
  · exact (overallStatus_allUp_anyDown _ (by decide)).1 (by decide)
  · exact (overallStatus_allUp_anyDown _ (by decide)).2
      ⟨⟨"b", "down", none, none, none⟩, by decide, rfl⟩

/-- C4, counterexample: in the second (demo) variant a failed summary fetch
does NOT render an error state — `renderMockData` fabricates a payload in
which every service is `"up"` with uptime `"100.00"`, which yields the
Operational ("all systems up") banner. -/
theorem demoTick_failure_renders_all_up_mock :
    loadStatusDataDemo none (fun _ => 0) =
      .mockRendered (renderMockSites (fun _ => 0)) ∧
    (renderMockSites (fun _ => 0)).all
      (fun s => s.status = "up" && s.uptime = some "100.00") = true ∧
    updateOverallStatus (renderMockSites (fun _ => 0)) = .operational ∧
    loadStatusDataDemo none (fun _ => 0) ≠ .errorState := by decide

set_option maxRecDepth 4000 in
/-- C4, amended: on a failed or non-OK summary fetch the FIRST variant
renders the error state, whose markup carries the manual-retry button
(`onclick="loadStatusData()"`); the second (demo) variant instead renders
fabricated mock data in which every service is Up with uptime `"100.00"`. -/
theorem tick_failure_rendering (rand : Nat → Nat) :
    loadStatusData none = .errorState ∧
    List.IsInfix ("onclick=\"loadStatusData()\"").data showErrorStateHtml.data ∧
    loadStatusDataDemo none rand = .mockRendered (renderMockSites rand) ∧
    ∀ s ∈ renderMockSites rand, s.status = "up" ∧ s.uptime = some "100.00" := by
  refine ⟨rfl, by decide, rfl, ?_⟩
  intro s hs
  have hlist : renderMockSites rand =
      [⟨"Website", "up", some "100.00", some (rand 0 + 200), none⟩,
       ⟨"Streaming Service", "up", some "100.00", some (rand 1 + 200), none⟩] :=
    rfl
  rw [hlist] at hs
  simp only [List.mem_cons, List.not_mem_nil, or_false] at hs
  rcases hs with h | h <;> subst h <;> exact ⟨rfl, rfl⟩

/-- C4, witness: the amended theorem at the all-zero draw stream; the first
mock site is the `"Website"` service reported Up. -/
theorem tick_failure_rendering_witness :
    loadStatusData none = .errorState ∧
    (⟨"Website", "up", some "100.00", some 200, none⟩ : Site).status = "up" := by
  have h := tick_failure_rendering (fun _ => 0)
  exact ⟨h.1,
    (h.2.2.2 ⟨"Website", "up", some "100.00", some 200, none⟩ (by decide)).1⟩

/-- C5: for a non-empty fetched history series the chart has exactly 24
points; the point of slot `i` (hour key `chartHour nowHour i`) is the
rounded mean of the samples whose hour-of-day equals that key — and `null`
(`none`), never zero, when no sample falls in that hour.  The final conjunct
identifies `jsRound` with rounding the exact rational mean to the nearest
integer. -/
theorem chartPoints_hourly_mean_or_null (data : List HistPoint)
    (nowHour : Int) (hne : data ≠ []) :
    (chartDataFromHistory data nowHour).length = 24 ∧
    (∀ i, i < 24 →
      (hourGroup data (chartHour nowHour i) = [] →
        (chartDataFromHistory data nowHour).getD i (some 0) = none) ∧
      (hourGroup data (chartHour nowHour i) ≠ [] →
        (chartDataFromHistory data nowHour).getD i none =
          some (jsRound (groupSum data (chartHour nowHour i))
            (hourGroup data (chartHour nowHour i)).length))) ∧
    (∀ s c : Nat, 0 < c → (jsRound s c : Int) = round ((s : ℚ) / c)) := by
  have hlist : chartDataFromHistory data nowHour =
      (List.range 24).map (fun i => chartPoint data (chartHour nowHour i)) := by
    rw [chartDataFromHistory, if_neg hne]
  refine ⟨by rw [hlist]; simp, ?_, fun s c hc => jsRound_eq_round s c hc⟩
  intro i hi
  have hget : ∀ dflt : Option Nat,
      (chartDataFromHistory data nowHour).getD i dflt =
        chartPoint data (chartHour nowHour i) := by
    intro dflt
    rw [hlist]
    have h1 : i < ((List.range 24).map
        (fun j => chartPoint data (chartHour nowHour j))).length := by
      simp [hi]
    rw [List.getD_eq_getElem _ _ h1, List.getElem_map, List.getElem_range]
  constructor
  · intro hg
    rw [hget, chartPoint_spec, if_pos hg]
  · intro hg
    rw [hget, chartPoint_spec, if_neg hg]

/-- C5, witness: a 3-sample series (two samples in hour 0, one in hour 1)
with `nowHour = 23`: slot 0 is the rounded mean `(100 + 300) / 2 = 200`,
slot 2 (hour 2, no samples) is `null`. -/
theorem chartPoints_hourly_mean_or_null_witness :
    (chartDataFromHistory [⟨0, 100⟩, ⟨3600000, 200⟩, ⟨10, 300⟩] 23).length
      = 24 ∧
    (chartDataFromHistory [⟨0, 100⟩, ⟨3600000, 200⟩, ⟨10, 300⟩] 23).getD 0 none
      = some 200 ∧
    (chartDataFromHistory [⟨0, 100⟩, ⟨3600000, 200⟩, ⟨10, 300⟩] 23).getD 2
      (some 0) = none := by
  have h := chartPoints_hourly_mean_or_null
    [⟨0, 100⟩, ⟨3600000, 200⟩, ⟨10, 300⟩] 23 (by decide)
  refine ⟨h.1, ?_, (h.2.1 2 (by decide)).1 (by decide)⟩
  have h2 := (h.2.1 0 (by decide)).2 (by decide)
  rw [h2]
  decide

/-- C6, counterexample: with baseline 300 the claimed synthetic formula
`max(100, baseline + 100*sin(i/4))` gives, at hour offset `i = 4`, a value
that rounds to at least 375 — but the code's fallback series is the constant
`currentTime`, 300 at every slot.  No sine-based series occurs in the code. -/
theorem fallbackChart_not_sine_formula :
    (fallbackChartData 300).getD 4 0 = 300 ∧
    round (max (100 : ℝ) (300 + 100 * Real.sin (4 / 4))) ≠ (300 : ℤ) := by
  constructor
  · decide
  · have h44 : ((4 : ℝ) / 4) = 1 := by norm_num
    rw [h44]
    have hs1 : (3 : ℝ) / 4 < Real.sin 1 := by
      have h := Real.sin_gt_sub_cube (by norm_num : (0 : ℝ) < 1) (le_refl 1)
      norm_num at h
      linarith
    have hs2 : Real.sin 1 ≤ 1 := Real.sin_le_one 1
    have hmax : max (100 : ℝ) (300 + 100 * Real.sin 1) =
        300 + 100 * Real.sin 1 :=
      max_eq_right (by linarith)
    rw [hmax]
    have h375 : (375 : ℤ) ≤ round (300 + 100 * Real.sin 1 : ℝ) := by
      rw [round_eq]
      apply Int.le_floor.mpr
      push_cast
      linarith
    omega

/-- C6, amended: when no historical series is available the substituted
24-point series is constant — every slot equals the current response time
baseline (`site.time || 300`, so 300 when the field is absent or zero);
no sine shaping or 100ms floor is applied. -/
theorem fallbackChart_constant_series (t : Nat) :
    fallbackChartData t = List.replicate 24 t ∧
    chartBaseline none = 300 ∧ chartBaseline (some 0) = 300 := by
  refine ⟨?_, rfl, rfl⟩
  simp [fallbackChartData, List.map_const']

/-- C7, counterexample: the second variant's uptime bar consults
`Math.random()` per cell, so two runs on the SAME payload with different
draw streams (both valid `Math.random` outputs in `[0,1)`) render different
bars — the output is not a function of the input data alone. -/
theorem demoUptimeBar_depends_on_random :
    generateUptimeBarDemo (fun _ => 1 / 2) = List.replicate uptimeDays "" ∧
    generateUptimeBarDemo (fun _ => 1 / 200) =
      List.replicate uptimeDays "down" ∧
    generateUptimeBarDemo (fun _ => 1 / 2) ≠
      generateUptimeBarDemo (fun _ => 1 / 200) := by
  have h1 : generateUptimeBarDemo (fun _ => 1 / 2) =
      List.replicate uptimeDays "" := by
    simp only [generateUptimeBarDemo, gt_iff_lt]
    norm_num [List.map_const', List.length_range]
  have h2 : generateUptimeBarDemo (fun _ => 1 / 200) =
      List.replicate uptimeDays "down" := by
    simp only [generateUptimeBarDemo, gt_iff_lt]
    norm_num [List.map_const', List.length_range]
  exact ⟨h1, h2, by rw [h1, h2]; decide⟩

/-- C7, amended: the first variant's full render tick is a pure function of
the payload, the per-site history results and the current hour: it never
consults the run's `Math.random` stream, so two runs with identical inputs
and arbitrary (even different) draw streams produce identical output.  In
the second (demo) variant this fails for the uptime bar (see the
counterexample). -/
theorem renderTick_deterministic (sites : List Site)
    (hists : List (Option (List HistPoint))) (nowHour : Int)
    (r1 r2 : Nat → ℚ) :
    renderTick sites hists nowHour r1 = renderTick sites hists nowHour r2 :=
  rfl

/-- C8, counterexample: the second variant renders the uptime of a site with
no usable uptime field as the raw default string `"100"`, which does not
have two decimal places. -/
theorem demoUptimeDisplay_missing_two_decimals :
    uptimeDisplayDemo none = "100" ∧
    hasTwoDecimals (uptimeDisplayDemo none) = false := by decide

/-- C8, amended: a site without a usable uptime field defaults to the
percentage 100 in both variants; the FIRST variant renders it `toFixed(2)`
as `"100.00"` (exactly two decimal places), while the second (demo) variant
renders the raw `"100"`. -/
theorem uptime_default_display (u : Option String)
    (hu : u = none ∨ u = some "") :
    uptimePercent u = 100 ∧ uptimeDisplay u = "100.00" ∧
    hasTwoDecimals (uptimeDisplay u) = true ∧ uptimeDisplayDemo u = "100" := by
  have hraw : uptimeRaw u = "100" := by
    rcases hu with h | h <;> simp [uptimeRaw, h]
  have hp : uptimePercent u = 100 := by
    rw [uptimePercent, hraw]
    decide
  have hd : uptimeDisplay u = "100.00" := by
    rw [uptimeDisplay, hp]
    have hfl : ⌊(100 : ℚ) * 100 + 1 / 2⌋ = (10000 : ℤ) := by norm_num
    simp only [formatFixed2, hfl]
    rfl
  exact ⟨hp, hd, by rw [hd]; decide, hraw⟩

/-- C8, witness: the amended theorem at an absent uptime field. -/
theorem uptime_default_display_witness :
    uptimePercent none = 100 ∧ uptimeDisplay none = "100.00" :=
  ⟨(uptime_default_display none (Or.inl rfl)).1,
   (uptime_default_display none (Or.inl rfl)).2.1⟩

/-- C9: when every per-service status is exactly `"up"` or `"down"`, the
Degraded banner branch is unreachable — the result is always Operational or
Outage. -/
theorem overallStatus_binary_never_degraded (sites : List Site)
    (hb : ∀ s ∈ sites, s.status = "up" ∨ s.status = "down") :
    updateOverallStatus sites = .operational ∨
    updateOverallStatus sites = .outage := by
  by_cases hall : sites.all (fun s => s.status = "up") = true
  · left
    simp [updateOverallStatus, hall]
  · right
    have hallf : sites.all (fun s => s.status = "up") = false := by
      cases hq : sites.all (fun s => s.status = "up")
      · rfl
      · exact absurd hq hall
    rw [List.all_eq_false] at hallf
    obtain ⟨s, hs, hnot⟩ := hallf
    have hdown : s.status = "down" := by
      rcases hb s hs with h | h
      · exact absurd (by simp [h]) hnot
      · exact h
    have hany : sites.any (fun s => s.status = "down") = true := by
      rw [List.any_eq_true]
      exact ⟨s, hs, by simp [hdown]⟩
    have hallf2 : sites.all (fun s => s.status = "up") = false := by
      rw [List.all_eq_false]
      exact ⟨s, hs, hnot⟩
    simp [updateOverallStatus, hallf2, hany]

/-- C9, witness: a binary mixed list lands in Operational-or-Outage (here:
Outage). -/
theorem overallStatus_binary_never_degraded_witness :
    updateOverallStatus
      [⟨"a", "up", none, none, none⟩, ⟨"b", "down", none, none, none⟩]
      = .operational ∨
    updateOverallStatus
      [⟨"a", "up", none, none, none⟩, ⟨"b", "down", none, none, none⟩]
      = .outage :=
  overallStatus_binary_never_degraded _ (by decide)

/-- C10: on an empty sites list `every` is vacuously true, so the banner is
Operational — no error and no distinct unknown state. -/
theorem overallStatus_empty_operational :
    updateOverallStatus [] = .operational := by decide
